import Mathlib

set_option maxRecDepth 8192

/-!
Verification of the Geospatial Hazard-Awareness Engine of the
bantay-pinoy-alert repository.

The engine's pure logic is embedded shallowly:

* `calculateRouteSafety` embeds the route-safety scorer of `MapView`
  (the helper of the same name).
* `processInsert` / `processUpdate` embed the two realtime callbacks of
  `useHazardNotifications` (the INSERT and UPDATE handlers) as explicit
  state-passing functions over the `processedHazards` dedup set.
* `nearbySafeZones` embeds the safe-zone ranking memo of `MapView`.
* `distanceKm` models the haversine distance of the geolocation library
  (whose source file is not part of the sources; only callers are), from
  the specification.

The external `calculateDistance(lat1, lon1, lat2, lon2)` function is a
pure numeric function imported by every embedded component; the embedded
components are parametrised by an arbitrary such function
`dist : ℚ → ℚ → ℚ → ℚ → ℚ`, since none of their control flow depends on
how it is computed.  JavaScript numbers are modelled by `ℚ`.
-/

namespace Bantay

/-- A hazard report row as read by the engine (`HazardReport` interface in
`useHazardNotifications.tsx` / `MapView`): only the fields the embedded
logic inspects are kept. -/
structure HazardReport where
  id : String
  name : Option String
  hazard_type : String
  description : String
  latitude : ℚ
  longitude : ℚ
  status : String
deriving DecidableEq

/-- The status string written by the admin resolution workflow
(`handleMarkAsFixed` in the admin dashboard updates the row with
`status: 'resolved'`). -/
def adminResolvedStatus : String := "resolved"

/-- The status string that `MapView` and `useHazardNotifications` treat as
resolved (`hazard.status === 'fixed'`). -/
def engineFixedStatus : String := "fixed"

/-- Penalty accumulated for one (sample point, active hazard) pair in
`calculateRouteSafety`:
`if (distance < 0.5) += 10; else if (distance < 1) += 5; else if (distance < 2) += 2`. -/
def hazardPenalty (d : ℚ) : ℤ :=
  if d < 1/2 then 10 else if d < 1 then 5 else if d < 2 then 2 else 0

/-- Embedding of `calculateRouteSafety(routeCoordinates, hazards)` from
`MapView`: early `100` on an empty hazard list, sample every 5th
coordinate (`filter((_, idx) => idx % 5 === 0)`), accumulate
`hazardPenalty` over sample points × hazards skipping hazards with
`status === 'fixed'`, and return `Math.max(0, 100 - score)`. -/
def calculateRouteSafety (dist : ℚ → ℚ → ℚ → ℚ → ℚ)
    (routeCoordinates : List (ℚ × ℚ)) (hazards : List HazardReport) : ℤ :=
  if hazards.length = 0 then 100
  else
    let samplePoints := (routeCoordinates.enum.filter (fun p => p.1 % 5 = 0)).map Prod.snd
    let total := samplePoints.foldl (fun acc point =>
      hazards.foldl (fun acc2 h =>
        if h.status = "fixed" then acc2
        else acc2 + hazardPenalty (dist point.1 point.2 h.latitude h.longitude)) acc) 0
    max 0 (100 - total)

/-- Sampled route coordinates as the specification words them: the
coordinates at 0-indexed positions 0, 5, 10, …  (`i` is the position of
the head of the remaining list). -/
def every5th : ℕ → List (ℚ × ℚ) → List (ℚ × ℚ)
  | _, [] => []
  | i, p :: rest => if i % 5 = 0 then p :: every5th (i+1) rest else every5th (i+1) rest

/-- The total penalty as the specification words it: the sum, over sampled
coordinates and over every hazard not marked fixed, of `hazardPenalty` of
their distance. -/
def specPenalty (dist : ℚ → ℚ → ℚ → ℚ → ℚ)
    (routeCoordinates : List (ℚ × ℚ)) (hazards : List HazardReport) : ℤ :=
  ((every5th 0 routeCoordinates).map (fun point =>
    ((hazards.filter (fun h => ¬ h.status = "fixed")).map (fun h =>
      hazardPenalty (dist point.1 point.2 h.latitude h.longitude))).sum)).sum

/-! ## Proximity notifier (`useHazardNotifications`) -/

/-- The `NOTIFICATION_RADIUS_KM` constant of `useHazardNotifications.tsx`. -/
def NOTIFICATION_RADIUS_KM : ℚ := 5

/-- Payload of a realtime INSERT event (`payload.new as HazardReport`).
`coords = none` models a malformed payload whose latitude/longitude are
missing: `calculateDistance` then evaluates on `undefined` and returns
`NaN`, and the `NaN <= 5` radius comparison is false. -/
structure InsertEvent where
  id : String
  name : Option String
  hazard_type : String
  description : String
  coords : Option (ℚ × ℚ)
deriving DecidableEq

/-- Payload of a realtime UPDATE event: the fields of `payload.old` and
`payload.new` that the handler reads (`old.status`, `new.status`,
`new.latitude`, `new.longitude`, `new.hazard_type`). -/
structure UpdateEvent where
  id : String
  hazard_type : String
  oldStatus : String
  newStatus : String
  latitude : ℚ
  longitude : ℚ
deriving DecidableEq

/-- A toast emitted by the notifier: its title and description strings. -/
structure Notification where
  title : String
  description : String
deriving DecidableEq

/-- Model of JavaScript `x.toFixed(1)` for a non-negative rational:
round to the nearest multiple of 1/10, half away from zero (ECMA-262
picks the larger candidate on ties), and print one digit after the
point. -/
def toFixed1 (q : ℚ) : String :=
  let n : ℤ := ⌊q * 10 + 1/2⌋
  toString (n / 10) ++ "." ++ toString (n % 10)

/-- `newHazard.name || newHazard.hazard_type`: JavaScript `||` falls back
on `null` and on the empty string. -/
def displayName : Option String → String → String
  | none, ht => ht
  | some s, ht => if s = "" then ht else s

/-- `description.substring(0, 80)` followed by `'...'` exactly when
`description.length > 80`. -/
def truncate80 (s : String) : String :=
  s.take 80 ++ (if 80 < s.length then "..." else "")

/-- Embedding of the INSERT callback of `useHazardNotifications`: dedup
gate on `processedHazards` first (`has` then `add`), then the distance
computation, then the `distance <= NOTIFICATION_RADIUS_KM` radius gate
around `toast.warning`.  Returns the updated dedup set and the list of
emitted notifications. -/
def processInsert (dist : ℚ → ℚ → ℚ → ℚ → ℚ) (userLat userLon : ℚ)
    (seen : List String) (e : InsertEvent) : List String × List Notification :=
  if e.id ∈ seen then (seen, [])
  else
    let seen' := seen ++ [e.id]
    match e.coords with
    | none => (seen', [])
    | some (la, lo) =>
      let d := dist userLat userLon la lo
      if d ≤ NOTIFICATION_RADIUS_KM then
        (seen',
         [{ title := "New hazard reported " ++ toFixed1 d ++ "km from your location",
            description := displayName e.name e.hazard_type ++ " - " ++ truncate80 e.description }])
      else (seen', [])

/-- Embedding of the UPDATE callback of `useHazardNotifications`: the
resolution-transition test `old.status !== 'fixed' && new.status === 'fixed'`,
then the radius gate around `toast.success`.  The callback never touches
`processedHazards`. -/
def processUpdate (dist : ℚ → ℚ → ℚ → ℚ → ℚ) (userLat userLon : ℚ)
    (seen : List String) (e : UpdateEvent) : List String × List Notification :=
  if ¬ e.oldStatus = "fixed" ∧ e.newStatus = "fixed" then
    let d := dist userLat userLon e.latitude e.longitude
    if d ≤ NOTIFICATION_RADIUS_KM then
      (seen,
       [{ title := "Hazard resolved " ++ toFixed1 d ++ "km from your location",
          description := e.hazard_type ++ " has been fixed by authorities" }])
    else (seen, [])
  else (seen, [])

/-- Run a sequence of INSERT events through `processInsert`, threading the
dedup set and recording, for each event, the notifications it emitted. -/
def insertTrace (dist : ℚ → ℚ → ℚ → ℚ → ℚ) (userLat userLon : ℚ)
    (seen : List String) : List InsertEvent → List (InsertEvent × List Notification)
  | [] => []
  | e :: rest =>
    (e, (processInsert dist userLat userLon seen e).2) ::
      insertTrace dist userLat userLon (processInsert dist userLat userLon seen e).1 rest

/-- Number of notifications the trace attributes to events with hazard id
`x`. -/
def countFor (x : String) (tr : List (InsertEvent × List Notification)) : ℕ :=
  ((tr.filter (fun p => p.1.id = x)).map (fun p => p.2.length)).sum

/-! ## Safe-zone ranking (`nearbySafeZones` memo of `MapView`) -/

/-- A static safe-zone catalog entry (`ALL_SAFE_ZONES` element). -/
structure SafeZone where
  name : String
  lat : ℚ
  lon : ℚ
deriving DecidableEq

/-- A catalog entry decorated with its computed distance
(`{ ...zone, distance }`). -/
structure RankedSafeZone where
  zone : SafeZone
  distance : ℚ
deriving DecidableEq

/-- The comparator order of `.sort((a, b) => a.distance - b.distance)`. -/
def distLe (a b : RankedSafeZone) : Prop := a.distance ≤ b.distance

instance : DecidableRel distLe := fun a b => inferInstanceAs (Decidable (a.distance ≤ b.distance))

instance : IsTotal RankedSafeZone distLe := ⟨fun a b => le_total a.distance b.distance⟩

instance : IsTrans RankedSafeZone distLe := ⟨fun _ _ _ => le_trans⟩

/-- Embedding of the `nearbySafeZones` computation of `MapView`: decorate
every catalog zone with its distance from the user, sort ascending by
distance and keep the 5 nearest (`.sort((a, b) => a.distance - b.distance).slice(0, 5)`).
ECMAScript's `Array.prototype.sort` is a stable sort, modelled by
insertion sort on the non-strict comparator order. -/
def nearbySafeZones (dist : ℚ → ℚ → ℚ → ℚ → ℚ)
    (zones : List SafeZone) (userLat userLon : ℚ) : List RankedSafeZone :=
  ((zones.map (fun z => ⟨z, dist userLat userLon z.lat z.lon⟩)).insertionSort distLe).take 5

/-! ## Haversine distance (geolocation library) -/

/-- A WGS-84 coordinate in degrees. -/
structure Coordinate where
  lat : ℝ
  lon : ℝ

/-- Modelled from the spec: the source file of the geolocation library
(`calculateDistance`, imported as `@/lib/geolocation`) is absent from the
sources, only its callers are.  The specification fixes it as the
great-circle haversine distance with Earth radius 6371 km, which in the
haversine formulation is
`2·R·arcsin(√(sin²(Δφ/2) + cos φ₁ · cos φ₂ · sin²(Δλ/2)))` with the
latitudes and deltas converted from degrees to radians. -/
noncomputable def distanceKm (a b : Coordinate) : ℝ :=
  2 * 6371 * Real.arcsin (Real.sqrt (
    Real.sin ((b.lat - a.lat) * (Real.pi / 180) / 2) ^ 2 +
    Real.cos (a.lat * (Real.pi / 180)) * Real.cos (b.lat * (Real.pi / 180)) *
      Real.sin ((b.lon - a.lon) * (Real.pi / 180) / 2) ^ 2))

/-! ## Concrete fixtures used by witnesses and counterexamples -/

/-- A distance function that is constantly 0 km (hazard at the user's
location). -/
def distZero : ℚ → ℚ → ℚ → ℚ → ℚ := fun _ _ _ _ => 0

/-- A distance function that is constantly 50 km (hazard far outside the
5 km radius). -/
def dist50 : ℚ → ℚ → ℚ → ℚ → ℚ := fun _ _ _ _ => 50

/-- A distance function that is constantly 0.03 km (a hazard 30 m away). -/
def dist003 : ℚ → ℚ → ℚ → ℚ → ℚ := fun _ _ _ _ => 3/100

/-- A hazard carrying the status the admin resolution workflow writes. -/
def hzAdminResolved : HazardReport :=
  { id := "h1", name := none, hazard_type := "Flooding", description := "flood on road",
    latitude := 0, longitude := 0, status := "resolved" }

/-- A well-formed INSERT event. -/
def evA : InsertEvent :=
  { id := "a", name := none, hazard_type := "Flooding", description := "desc",
    coords := some (0, 0) }

/-- A malformed INSERT event for id "m": its coordinates are missing. -/
def evMalformed : InsertEvent :=
  { id := "m", name := none, hazard_type := "Flooding", description := "desc",
    coords := none }

/-- A well-formed INSERT event carrying the same id "m". -/
def evValidM : InsertEvent :=
  { id := "m", name := none, hazard_type := "Flooding", description := "desc",
    coords := some (0, 0) }

/-- An UPDATE event carrying a resolution transition (pending → fixed). -/
def updFix : UpdateEvent :=
  { id := "u", hazard_type := "Flooding", oldStatus := "pending", newStatus := "fixed",
    latitude := 0, longitude := 0 }

/-- The toast `processInsert dist003 0 0 [] evA` emits. -/
def notifNear : Notification :=
  { title := "New hazard reported 0.0km from your location",
    description := "Flooding - desc" }

/-! ## Lemmas about the notifier -/

theorem processInsert_of_seen (dist : ℚ → ℚ → ℚ → ℚ → ℚ) (uLat uLon : ℚ)
    (seen : List String) (e : InsertEvent) (h : e.id ∈ seen) :
    processInsert dist uLat uLon seen e = (seen, []) := by
  simp [processInsert, h]

theorem mem_processInsert_fst (dist : ℚ → ℚ → ℚ → ℚ → ℚ) (uLat uLon : ℚ)
    (seen : List String) (e : InsertEvent) :
    e.id ∈ (processInsert dist uLat uLon seen e).1 := by
  by_cases h : e.id ∈ seen
  · simp [processInsert, h]
  · rcases hc : e.coords with _ | ⟨la, lo⟩ <;> simp [processInsert, h, hc]
    split <;> simp

theorem processInsert_fst_mono (dist : ℚ → ℚ → ℚ → ℚ → ℚ) (uLat uLon : ℚ)
    (seen : List String) (e : InsertEvent) (x : String) (h : x ∈ seen) :
    x ∈ (processInsert dist uLat uLon seen e).1 := by
  by_cases hs : e.id ∈ seen
  · simpa [processInsert, hs] using h
  · rcases hc : e.coords with _ | ⟨la, lo⟩ <;> simp [processInsert, hs, hc, h]
    split <;> simp [h]

theorem processInsert_snd_length_le (dist : ℚ → ℚ → ℚ → ℚ → ℚ) (uLat uLon : ℚ)
    (seen : List String) (e : InsertEvent) :
    (processInsert dist uLat uLon seen e).2.length ≤ 1 := by
  by_cases hs : e.id ∈ seen
  · simp [processInsert, hs]
  · rcases hc : e.coords with _ | ⟨la, lo⟩ <;> simp [processInsert, hs, hc]
    split <;> simp

theorem processInsert_none_no_notif (dist : ℚ → ℚ → ℚ → ℚ → ℚ) (uLat uLon : ℚ)
    (seen : List String) (e : InsertEvent) (hc : e.coords = none) :
    (processInsert dist uLat uLon seen e).2 = [] := by
  by_cases hs : e.id ∈ seen <;> simp [processInsert, hs, hc]

theorem processInsert_far_no_notif (dist : ℚ → ℚ → ℚ → ℚ → ℚ) (uLat uLon : ℚ)
    (seen : List String) (e : InsertEvent) (la lo : ℚ)
    (hc : e.coords = some (la, lo))
    (hd : NOTIFICATION_RADIUS_KM < dist uLat uLon la lo) :
    (processInsert dist uLat uLon seen e).2 = [] := by
  by_cases hs : e.id ∈ seen <;> simp [processInsert, hs, hc, not_le.mpr hd]

theorem processInsert_within_emits (dist : ℚ → ℚ → ℚ → ℚ → ℚ) (uLat uLon : ℚ)
    (seen : List String) (e : InsertEvent) (la lo : ℚ)
    (hs : e.id ∉ seen) (hc : e.coords = some (la, lo))
    (hd : dist uLat uLon la lo ≤ NOTIFICATION_RADIUS_KM) :
    (processInsert dist uLat uLon seen e).2.length = 1 := by
  simp [processInsert, hs, hc, hd]

theorem countFor_cons (x : String) (e : InsertEvent) (ns : List Notification)
    (tr : List (InsertEvent × List Notification)) :
    countFor x ((e, ns) :: tr) = (if e.id = x then ns.length else 0) + countFor x tr := by
  by_cases h : e.id = x <;> simp [countFor, List.filter_cons, h]

theorem countFor_eq_zero_of_mem (dist : ℚ → ℚ → ℚ → ℚ → ℚ) (uLat uLon : ℚ) (x : String) :
    ∀ (es : List InsertEvent) (seen : List String), x ∈ seen →
      countFor x (insertTrace dist uLat uLon seen es) = 0
  | [], _, _ => rfl
  | e :: es, seen, hx => by
    rw [insertTrace, countFor_cons]
    by_cases h : e.id = x
    · have hmem : e.id ∈ seen := by rw [h]; exact hx
      rw [processInsert_of_seen dist uLat uLon seen e hmem]
      simp [countFor_eq_zero_of_mem dist uLat uLon x es seen hx]
    · rw [if_neg h,
        countFor_eq_zero_of_mem dist uLat uLon x es _
          (processInsert_fst_mono dist uLat uLon seen e x hx)]

theorem countFor_le_one (dist : ℚ → ℚ → ℚ → ℚ → ℚ) (uLat uLon : ℚ) (x : String) :
    ∀ (es : List InsertEvent) (seen : List String),
      countFor x (insertTrace dist uLat uLon seen es) ≤ 1
  | [], _ => by simp [insertTrace, countFor]
  | e :: es, seen => by
    by_cases hx : x ∈ seen
    · rw [countFor_eq_zero_of_mem dist uLat uLon x (e :: es) seen hx]
      exact Nat.zero_le 1
    · rw [insertTrace, countFor_cons]
      by_cases h : e.id = x
      · have htail : countFor x (insertTrace dist uLat uLon
            (processInsert dist uLat uLon seen e).1 es) = 0 :=
          countFor_eq_zero_of_mem dist uLat uLon x es _
            (h ▸ mem_processInsert_fst dist uLat uLon seen e)
        rw [htail, if_pos h, Nat.add_zero]
        exact processInsert_snd_length_le dist uLat uLon seen e
      · rw [if_neg h, Nat.zero_add]
        exact countFor_le_one dist uLat uLon x es _

theorem head_noemit_countFor_zero (dist : ℚ → ℚ → ℚ → ℚ → ℚ) (uLat uLon : ℚ)
    (seen : List String) (e : InsertEvent) (es : List InsertEvent)
    (h : (processInsert dist uLat uLon seen e).2 = []) :
    countFor e.id (insertTrace dist uLat uLon seen (e :: es)) = 0 := by
  rw [insertTrace, countFor_cons, h,
    countFor_eq_zero_of_mem dist uLat uLon e.id es _
      (mem_processInsert_fst dist uLat uLon seen e)]
  simp

/-! ## Claims about the notifier -/

/-- C4: for every session and every hazard id, across any sequence of create
events, at most one "new hazard" notification is ever emitted for that id;
the first create event for an id whose hazard is within the radius emits
exactly one notification, and every subsequent create event carrying the
same id emits none. -/
theorem c4_at_most_one_create_notification (dist : ℚ → ℚ → ℚ → ℚ → ℚ)
    (uLat uLon : ℚ) (x : String) (e : InsertEvent) (rest : List InsertEvent) :
    (∀ (seen : List String) (es : List InsertEvent),
        countFor x (insertTrace dist uLat uLon seen es) ≤ 1) ∧
    (∀ la lo, e.coords = some (la, lo) →
        dist uLat uLon la lo ≤ NOTIFICATION_RADIUS_KM →
        countFor e.id (insertTrace dist uLat uLon [] (e :: rest)) = 1) := by
  refine ⟨fun seen es => countFor_le_one dist uLat uLon x es seen, fun la lo hc hd => ?_⟩
  have hs : e.id ∉ ([] : List String) := by simp
  rw [insertTrace, countFor_cons, if_pos rfl,
    processInsert_within_emits dist uLat uLon [] e la lo hs hc hd,
    countFor_eq_zero_of_mem dist uLat uLon e.id rest _
      (mem_processInsert_fst dist uLat uLon [] e)]

unseal Rat.mul Rat.add Rat.sub Rat.inv in
theorem c4_witness :
    evA.coords = some (0, 0) ∧ distZero 0 0 0 0 ≤ NOTIFICATION_RADIUS_KM ∧
    countFor evA.id (insertTrace distZero 0 0 [] [evA, evA]) = 1 :=
  ⟨rfl, by decide,
    (c4_at_most_one_create_notification distZero 0 0 evA.id evA [evA]).2 0 0 rfl (by decide)⟩

/-- C5: a create event whose hazard lies farther than the 5 km radius emits
no notification; its id is still recorded in the dedup set; and no further
create event carrying that id ever produces a notification, however often
it is replayed. -/
theorem c5_far_create_never_notifies (dist : ℚ → ℚ → ℚ → ℚ → ℚ) (uLat uLon : ℚ)
    (seen : List String) (e : InsertEvent) (la lo : ℚ) (es : List InsertEvent)
    (hc : e.coords = some (la, lo))
    (hd : NOTIFICATION_RADIUS_KM < dist uLat uLon la lo) :
    (processInsert dist uLat uLon seen e).2 = [] ∧
    e.id ∈ (processInsert dist uLat uLon seen e).1 ∧
    countFor e.id (insertTrace dist uLat uLon seen (e :: es)) = 0 :=
  ⟨processInsert_far_no_notif dist uLat uLon seen e la lo hc hd,
   mem_processInsert_fst dist uLat uLon seen e,
   head_noemit_countFor_zero dist uLat uLon seen e es
     (processInsert_far_no_notif dist uLat uLon seen e la lo hc hd)⟩

unseal Rat.mul Rat.add Rat.sub Rat.inv in
theorem c5_witness :
    evA.coords = some (0, 0) ∧ NOTIFICATION_RADIUS_KM < dist50 0 0 0 0 ∧
    ((processInsert dist50 0 0 [] evA).2 = [] ∧
     evA.id ∈ (processInsert dist50 0 0 [] evA).1 ∧
     countFor evA.id (insertTrace dist50 0 0 [] [evA, evA, evA]) = 0) :=
  ⟨rfl, by decide,
   c5_far_create_never_notifies dist50 0 0 [] evA 0 0 [evA, evA] rfl (by decide)⟩

/-- C7 counterexample: a malformed create event (missing coordinates) DOES
mark its id as seen, and a later valid create event for the same id within
radius emits no notification — refuting the claim at this input. -/
theorem c7_counterexample :
    evMalformed.coords = none ∧ evValidM.id = evMalformed.id ∧
    evMalformed.id ∈ (processInsert distZero 0 0 [] evMalformed).1 ∧
    countFor evValidM.id (insertTrace distZero 0 0 [] [evMalformed, evValidM]) = 0 := by
  decide

/-- C7 amended: for every malformed create event (missing coordinates), the
notifier emits no notification, but the hazard id IS marked as seen in the
dedup set, so a later create event for the same id (valid or not) emits no
notification. -/
theorem c7_amended_malformed_marks_seen (dist : ℚ → ℚ → ℚ → ℚ → ℚ) (uLat uLon : ℚ)
    (seen : List String) (e : InsertEvent) (es : List InsertEvent)
    (hc : e.coords = none) :
    (processInsert dist uLat uLon seen e).2 = [] ∧
    e.id ∈ (processInsert dist uLat uLon seen e).1 ∧
    countFor e.id (insertTrace dist uLat uLon seen (e :: es)) = 0 :=
  ⟨processInsert_none_no_notif dist uLat uLon seen e hc,
   mem_processInsert_fst dist uLat uLon seen e,
   head_noemit_countFor_zero dist uLat uLon seen e es
     (processInsert_none_no_notif dist uLat uLon seen e hc)⟩

theorem c7_amended_witness :
    evMalformed.coords = none ∧
    ((processInsert distZero 0 0 [] evMalformed).2 = [] ∧
     evMalformed.id ∈ (processInsert distZero 0 0 [] evMalformed).1 ∧
     countFor evMalformed.id (insertTrace distZero 0 0 [] [evMalformed, evValidM]) = 0) :=
  ⟨rfl, c7_amended_malformed_marks_seen distZero 0 0 [] evMalformed [evValidM] rfl⟩

/-- C2 counterexample: the UPDATE handler has no dedup gate, so processing
a duplicate replay of the same resolution-transition update emits one more
"hazard resolved" notification (length 1), not zero — refuting the claim
at this input. -/
theorem c2_counterexample :
    ¬ updFix.oldStatus = "fixed" ∧ updFix.newStatus = "fixed" ∧
    (processUpdate distZero 0 0 (processUpdate distZero 0 0 [] updFix).1 updFix).2.length
      = 1 := by
  decide

/-- C2 amended: the UPDATE handler builds no event key and applies no dedup
gate: every processing of an update event carrying a resolution transition
(previous status not the engine's fixed state, new status the fixed state)
within radius emits exactly one "hazard resolved" notification and leaves
the dedup set unchanged — so a duplicate replay emits one more
notification, not zero. -/
theorem c2_amended_no_dedup_on_update (dist : ℚ → ℚ → ℚ → ℚ → ℚ) (uLat uLon : ℚ)
    (seen : List String) (e : UpdateEvent)
    (h1 : ¬ e.oldStatus = "fixed") (h2 : e.newStatus = "fixed")
    (h3 : dist uLat uLon e.latitude e.longitude ≤ NOTIFICATION_RADIUS_KM) :
    (processUpdate dist uLat uLon seen e).1 = seen ∧
    (processUpdate dist uLat uLon seen e).2.length = 1 := by
  simp [processUpdate, h1, h2, h3]

unseal Rat.mul Rat.add Rat.sub Rat.inv in
theorem c2_amended_witness :
    ¬ updFix.oldStatus = "fixed" ∧ updFix.newStatus = "fixed" ∧
    distZero 0 0 updFix.latitude updFix.longitude ≤ NOTIFICATION_RADIUS_KM ∧
    ((processUpdate distZero 0 0 [] updFix).1 = [] ∧
     (processUpdate distZero 0 0 [] updFix).2.length = 1) :=
  ⟨by decide, rfl, by decide,
   c2_amended_no_dedup_on_update distZero 0 0 [] updFix (by decide) rfl (by decide)⟩

unseal Rat.mul Rat.add Rat.sub Rat.inv in
/-- C10: every notification title renders the distance as kilometers with
one decimal (`toFixed(1)` followed by "km"), for every distance value —
including a hazard 0.03 km (30 m) away, which renders as "0.0km"; no
meters rendering is ever used. -/
theorem c10_notification_title_km_format (dist : ℚ → ℚ → ℚ → ℚ → ℚ)
    (uLat uLon : ℚ) (seen : List String) :
    (∀ (e : InsertEvent), ∀ n ∈ (processInsert dist uLat uLon seen e).2,
       ∃ la lo, e.coords = some (la, lo) ∧
         n.title = "New hazard reported " ++ toFixed1 (dist uLat uLon la lo) ++
           "km from your location") ∧
    (∀ (e : UpdateEvent), ∀ n ∈ (processUpdate dist uLat uLon seen e).2,
       n.title = "Hazard resolved " ++ toFixed1 (dist uLat uLon e.latitude e.longitude) ++
         "km from your location") ∧
    toFixed1 (3/100) = "0.0" := by
  refine ⟨?_, ?_, by decide⟩
  · intro e n hn
    by_cases hs : e.id ∈ seen
    · simp [processInsert, hs] at hn
    · rcases hc : e.coords with _ | ⟨la, lo⟩
      · simp [processInsert, hs, hc] at hn
      · by_cases hd : dist uLat uLon la lo ≤ NOTIFICATION_RADIUS_KM
        · simp [processInsert, hs, hc, hd] at hn
          exact ⟨la, lo, rfl, by rw [hn]⟩
        · simp [processInsert, hs, hc, hd] at hn
  · intro e n hn
    by_cases ht : ¬ e.oldStatus = "fixed" ∧ e.newStatus = "fixed"
    · by_cases hd : dist uLat uLon e.latitude e.longitude ≤ NOTIFICATION_RADIUS_KM
      · simp [processUpdate, ht, hd] at hn
        rw [hn]
      · simp [processUpdate, ht, hd] at hn
    · simp [processUpdate, ht] at hn

unseal Rat.mul Rat.add Rat.sub Rat.inv in
theorem c10_witness :
    notifNear ∈ (processInsert dist003 0 0 [] evA).2 ∧
    (∃ la lo, evA.coords = some (la, lo) ∧
      notifNear.title = "New hazard reported " ++ toFixed1 (dist003 0 0 la lo) ++
        "km from your location") :=
  ⟨by decide,
   (c10_notification_title_km_format dist003 0 0 []).1 evA notifNear (by decide)⟩

/-! ## Claims about the route-safety scorer -/

unseal Rat.mul Rat.add Rat.sub Rat.inv in
/-- C1: evaluation at the failing input.  The admin resolution workflow
writes status "resolved" (`adminResolvedStatus`), but `calculateRouteSafety`
only excludes hazards whose status is "fixed": a route point coinciding
with a hazard that the admin workflow has resolved is still penalized by
10, scoring 90 instead of 100, while the same hazard relabelled with the
engine's "fixed" status scores 100. -/
theorem c1_resolved_status_penalized :
    hzAdminResolved.status = adminResolvedStatus ∧
    calculateRouteSafety distZero [(0, 0)] [hzAdminResolved] = 90 ∧
    calculateRouteSafety distZero [(0, 0)]
      [{ hzAdminResolved with status := engineFixedStatus }] = 100 := by
  decide

/-- C9: for every hazard list (including active hazards arbitrarily close
to the user), `calculateRouteSafety` on an empty route coordinate list
returns 100: downsampling an empty list yields no sample points, so no
penalty accumulates. -/
theorem c9_empty_route_scores_100 (dist : ℚ → ℚ → ℚ → ℚ → ℚ)
    (hazards : List HazardReport) :
    calculateRouteSafety dist [] hazards = 100 := by
  by_cases h : hazards.length = 0 <;> simp [calculateRouteSafety, h]

/-- Filtering the enumerated list on index `% 5 = 0` and projecting is the
positional sampling `every5th`. -/
theorem enumFrom_filter_eq_every5th :
    ∀ (i : ℕ) (l : List (ℚ × ℚ)),
      ((List.enumFrom i l).filter (fun p => p.1 % 5 = 0)).map Prod.snd = every5th i l
  | _, [] => rfl
  | i, p :: rest => by
    by_cases h : i % 5 = 0 <;>
      simp [List.enumFrom_cons, List.filter_cons, h, every5th,
        enumFrom_filter_eq_every5th (i + 1) rest]

/-- The inner `forEach` of `calculateRouteSafety` accumulates exactly the
sum of penalties over the non-fixed hazards. -/
theorem foldl_hazards_eq_sum (pen : HazardReport → ℤ) :
    ∀ (hs : List HazardReport) (acc : ℤ),
      hs.foldl (fun a h => if h.status = "fixed" then a else a + pen h) acc
        = acc + ((hs.filter (fun h => ¬ h.status = "fixed")).map pen).sum
  | [], acc => by simp
  | h :: hs, acc => by
    by_cases hf : h.status = "fixed" <;>
      simp [List.filter_cons, hf, foldl_hazards_eq_sum pen hs, add_assoc]

/-- Rewriting a fold under a pointwise-equal body. -/
theorem foldl_congr_fun (f g : ℤ → ℚ × ℚ → ℤ) (h : ∀ a p, f a p = g a p) :
    ∀ (l : List (ℚ × ℚ)) (a : ℤ), l.foldl f a = l.foldl g a
  | [], _ => rfl
  | p :: l, a => by rw [List.foldl_cons, List.foldl_cons, h, foldl_congr_fun f g h l]

/-- The outer `forEach` of `calculateRouteSafety` sums its per-point
contributions. -/
theorem foldl_points_eq_sum (g : ℚ × ℚ → ℤ) :
    ∀ (ps : List (ℚ × ℚ)) (acc : ℤ),
      ps.foldl (fun a p => a + g p) acc = acc + (ps.map g).sum
  | [], acc => by simp
  | p :: ps, acc => by simp [foldl_points_eq_sum g ps, add_assoc]

theorem hazardPenalty_nonneg (d : ℚ) : 0 ≤ hazardPenalty d := by
  unfold hazardPenalty
  split_ifs <;> norm_num

theorem specPenalty_nonneg (dist : ℚ → ℚ → ℚ → ℚ → ℚ)
    (route : List (ℚ × ℚ)) (hazards : List HazardReport) :
    0 ≤ specPenalty dist route hazards := by
  unfold specPenalty
  refine List.sum_nonneg ?_
  intro x hx
  simp only [List.mem_map] at hx
  obtain ⟨p, _, rfl⟩ := hx
  refine List.sum_nonneg ?_
  intro y hy
  simp only [List.mem_map] at hy
  obtain ⟨h, _, rfl⟩ := hy
  exact hazardPenalty_nonneg _

theorem specPenalty_nil (dist : ℚ → ℚ → ℚ → ℚ → ℚ) (route : List (ℚ × ℚ)) :
    specPenalty dist route [] = 0 := by
  unfold specPenalty
  refine List.sum_eq_zero ?_
  intro x hx
  simp only [List.mem_map] at hx
  obtain ⟨p, _, rfl⟩ := hx
  simp

theorem calculateRouteSafety_eq_spec (dist : ℚ → ℚ → ℚ → ℚ → ℚ)
    (route : List (ℚ × ℚ)) (hazards : List HazardReport) :
    calculateRouteSafety dist route hazards
      = max 0 (100 - specPenalty dist route hazards) := by
  unfold calculateRouteSafety
  by_cases h : hazards.length = 0
  · rw [if_pos h, List.length_eq_zero.mp h, specPenalty_nil]
    norm_num
  · rw [if_neg h]
    have hsample : (route.enum.filter (fun p => p.1 % 5 = 0)).map Prod.snd
        = every5th 0 route := by
      rw [List.enum]
      exact enumFrom_filter_eq_every5th 0 route
    have hinner : ∀ (a : ℤ) (p : ℚ × ℚ),
        hazards.foldl (fun acc2 hz => if hz.status = "fixed" then acc2
          else acc2 + hazardPenalty (dist p.1 p.2 hz.latitude hz.longitude)) a
        = a + ((hazards.filter (fun hz => ¬ hz.status = "fixed")).map
            (fun hz => hazardPenalty (dist p.1 p.2 hz.latitude hz.longitude))).sum :=
      fun a p => foldl_hazards_eq_sum _ hazards a
    simp only [hsample]
    rw [foldl_congr_fun
      (fun acc point => hazards.foldl (fun acc2 hz => if hz.status = "fixed" then acc2
        else acc2 + hazardPenalty (dist point.1 point.2 hz.latitude hz.longitude)) acc)
      (fun a p => a + ((hazards.filter (fun hz => ¬ hz.status = "fixed")).map
        (fun hz => hazardPenalty (dist p.1 p.2 hz.latitude hz.longitude))).sum)
      hinner, foldl_points_eq_sum, zero_add]
    rfl

/-- C3: `calculateRouteSafety` equals `max 0 (100 - P)` where `P` is the
sum over sampled coordinates (0-indexed positions 0, 5, 10, …) and
non-fixed hazards of the banded proximity penalty (10 below 0.5 km, 5 in
[0.5, 1), 2 in [1, 2), 0 at 2 km and beyond); an empty hazard list yields
100, and the result is an integer in [0, 100]. -/
theorem c3_calculateRouteSafety_formula (dist : ℚ → ℚ → ℚ → ℚ → ℚ)
    (route : List (ℚ × ℚ)) (hazards : List HazardReport) :
    calculateRouteSafety dist route hazards
      = max 0 (100 - specPenalty dist route hazards) ∧
    calculateRouteSafety dist route [] = 100 ∧
    0 ≤ calculateRouteSafety dist route hazards ∧
    calculateRouteSafety dist route hazards ≤ 100 := by
  refine ⟨calculateRouteSafety_eq_spec dist route hazards, ?_, ?_, ?_⟩
  · rw [calculateRouteSafety_eq_spec, specPenalty_nil]
    norm_num
  · rw [calculateRouteSafety_eq_spec]
    exact le_max_left 0 _
  · rw [calculateRouteSafety_eq_spec]
    have := specPenalty_nonneg dist route hazards
    refine max_le (by norm_num) (by omega)

/-! ## Claims about the safe-zone ranking -/

theorem not_le_of_mem_takeWhile {a b : RankedSafeZone} {l : List RankedSafeZone}
    (hb : b ∈ l.takeWhile fun c => ¬ distLe a c) : ¬ a.distance ≤ b.distance := by
  have h := List.mem_takeWhile_imp hb
  simpa [distLe] using h

theorem filter_orderedInsert_eq_key (a : RankedSafeZone) (l : List RankedSafeZone)
    (d : ℚ) (ha : a.distance = d) :
    (l.orderedInsert distLe a).filter (fun z => z.distance = d)
      = a :: l.filter (fun z => z.distance = d) := by
  rw [List.orderedInsert_eq_take_drop, List.filter_append]
  have h1 : (l.takeWhile fun c => ¬ distLe a c).filter (fun z => z.distance = d) = [] := by
    rw [List.filter_eq_nil_iff]
    intro b hb
    have hlt := not_le_of_mem_takeWhile hb
    simp only [decide_eq_true_eq]
    intro hbd
    exact hlt (by rw [ha, hbd])
  rw [h1, List.nil_append, List.filter_cons_of_pos (by simpa using ha)]
  congr 1
  conv_rhs => rw [← List.takeWhile_append_dropWhile (p := fun c => decide (¬ distLe a c)) (l := l)]
  rw [List.filter_append, h1, List.nil_append]

theorem filter_orderedInsert_ne_key (a : RankedSafeZone) (l : List RankedSafeZone)
    (d : ℚ) (ha : ¬ a.distance = d) :
    (l.orderedInsert distLe a).filter (fun z => z.distance = d)
      = l.filter (fun z => z.distance = d) := by
  rw [List.orderedInsert_eq_take_drop, List.filter_append,
    List.filter_cons_of_neg (by simpa using ha)]
  conv_rhs => rw [← List.takeWhile_append_dropWhile (p := fun c => decide (¬ distLe a c)) (l := l)]
  rw [List.filter_append]

/-- Stability of the sort: filtering the sorted list at any fixed distance
value gives the same sequence as filtering the input. -/
theorem filter_insertionSort_eq (d : ℚ) :
    ∀ l : List RankedSafeZone,
      (l.insertionSort distLe).filter (fun z => z.distance = d)
        = l.filter (fun z => z.distance = d)
  | [] => rfl
  | a :: l => by
    rw [List.insertionSort]
    by_cases ha : a.distance = d
    · rw [filter_orderedInsert_eq_key a _ d ha, filter_insertionSort_eq d l,
        List.filter_cons_of_pos (by simpa using ha)]
    · rw [filter_orderedInsert_ne_key a _ d ha, filter_insertionSort_eq d l,
        List.filter_cons_of_neg (by simpa using ha)]

/-- C6: ranking the safe-zone catalog from a reference point yields zones in
non-decreasing distance order, truncated to 5 entries; zones at equal
distance keep the catalog order (the filtered output at any distance is a
prefix of the filtered decorated catalog); an empty catalog yields an
empty result. -/
theorem c6_nearbySafeZones_spec (dist : ℚ → ℚ → ℚ → ℚ → ℚ)
    (zones : List SafeZone) (uLat uLon : ℚ) :
    (nearbySafeZones dist zones uLat uLon).Pairwise distLe ∧
    (nearbySafeZones dist zones uLat uLon).length = min 5 zones.length ∧
    (∀ d : ℚ,
      (nearbySafeZones dist zones uLat uLon).filter (fun z => z.distance = d) <+:
        ((zones.map (fun z => RankedSafeZone.mk z (dist uLat uLon z.lat z.lon))).filter
          (fun z => z.distance = d))) ∧
    nearbySafeZones dist [] uLat uLon = [] := by
  refine ⟨?_, ?_, ?_, rfl⟩
  · exact List.Pairwise.sublist (List.take_sublist 5 _)
      (List.sorted_insertionSort distLe _)
  · simp [nearbySafeZones]
  · intro d
    unfold nearbySafeZones
    refine ⟨(((zones.map (fun z => RankedSafeZone.mk z (dist uLat uLon z.lat z.lon))).insertionSort
        distLe).drop 5).filter (fun z => z.distance = d), ?_⟩
    rw [← List.filter_append, List.take_append_drop, filter_insertionSort_eq]

/-! ## Claims about the distance function -/

/-- C8: the haversine great-circle distance (Earth radius 6371 km,
modelled from the spec, the library source being absent) is symmetric,
and the distance from a coordinate to itself is 0. -/
theorem c8_distanceKm_symm_self (a b : Coordinate) :
    distanceKm a b = distanceKm b a ∧ distanceKm a a = 0 := by
  constructor
  · unfold distanceKm
    have key : ∀ x y : ℝ,
        Real.sin ((x - y) * (Real.pi / 180) / 2) ^ 2
          = Real.sin ((y - x) * (Real.pi / 180) / 2) ^ 2 := by
      intro x y
      rw [show (x - y) * (Real.pi / 180) / 2 = -((y - x) * (Real.pi / 180) / 2) by ring,
        Real.sin_neg, neg_sq]
    rw [key b.lat a.lat, key b.lon a.lon,
      mul_comm (Real.cos (a.lat * (Real.pi / 180))) (Real.cos (b.lat * (Real.pi / 180)))]
  · unfold distanceKm
    simp

end Bantay
